import Mathlib

/-!
Verification development for the TelegramBot-Stella repository (src/main.py).

The Python source is shallowly embedded: each handler branch becomes a pure
Lean function over an explicit session state; the Telegram transport and the
MongoDB collections are modelled at their interface by explicit arguments
(query results, Except values for fallible calls, lists for collections).
Line numbers in doc comments refer to src/main.py.
-/

namespace Stella

/-- Formatting annotations (pyrogram MessageEntity values) are carried around
verbatim by the code and never inspected; we model them opaquely. -/
abbrev Entity := Nat

/-- The content kinds of a post draft, mirroring the string values stored in
the "type" field of the post_cache dict (lines 419-439). -/
inductive ContentKind
  | text
  | photo
  | video
  | document
  | audio
deriving DecidableEq, Repr

/-- The staged file stored under the "temp_file" key of the post_cache entry
while the wizard waits for a button title (lines 495-500). -/
structure TempFile where
  file_id : String
  file_type : String
  file_name : String
  caption : String
deriving DecidableEq, Repr

/-- One admin's post_cache entry (the draft), mirroring the dict built at
lines 419-426: type, text, entities, file_id, buttons, attached_file_token,
plus the transient temp_file key (absent = none). Buttons are (text, url)
pairs in insertion order. -/
structure Draft where
  type : ContentKind
  text : String
  entities : List Entity
  file_id : Option String
  buttons : List (String × String)
  attached_file_token : Option String
  temp_file : Option TempFile
deriving DecidableEq, Repr

/-- The admin wizard step strings stored in user_states (absent entry =
idle). Names follow the string literals in src/main.py. -/
inductive AdminState
  | WAITING_JOIN_CHANNEL_INPUT
  | WAITING_POST_CHANNEL_INPUT
  | WAITING_TEXT_EDIT
  | WAITING_POST_CONTENT
  | WAITING_URL_BUTTONS
  | WAITING_FILE_ATTACH
  | WAITING_BUTTON_TITLE
  | BUILDING_POST
deriving DecidableEq, Repr

/-- An inbound private message from the admin, at the interface the handlers
read: optional text / caption, entity lists (None and the empty list are
interchangeable under Python truthiness here), and the four media slots
carrying a file_id when present. -/
structure Msg where
  text : Option String
  caption : Option String
  entities : List Entity
  caption_entities : List Entity
  photo : Option String
  video : Option String
  document : Option String
  audio : Option String
deriving DecidableEq, Repr

/-- Python truthiness of an optional string: None and the empty string are
falsy. -/
def pyStrTruthy : Option String → Bool
  | none => false
  | some s => !(s == "")

/-- Python str.split on a single separator character with no maxsplit
(message.text.split of a newline, line 450): splitting the empty string
gives one empty segment, and each separator occurrence terminates the
current segment. -/
def py_split (sep : Char) : List Char → List (List Char)
  | [] => [[]]
  | c :: rest =>
    if c = sep then [] :: py_split sep rest
    else
      match py_split sep rest with
      | [] => [[c]]
      | l :: ls => (c :: l) :: ls

/-- Python str.strip() with no argument: drop leading and trailing
whitespace. -/
def py_strip (s : List Char) : List Char :=
  ((s.dropWhile Char.isWhitespace).reverse.dropWhile Char.isWhitespace).reverse

/-- Python "a or b or \x22\x22" over optional strings (lines 402, 421). -/
def pyOrStr (a b : Option String) : String :=
  if pyStrTruthy a then a.getD "" else if pyStrTruthy b then b.getD "" else ""

/-- Python "a or b or []" over entity lists (lines 403, 422): an empty list
is falsy, so the first nonempty list wins. -/
def pyOrList (a b : List Entity) : List Entity :=
  if a.isEmpty then b else a

/-- format_button_markup's row-building loop (lines 132-142): the Python
code walks the button list two at a time, emitting a two-button row when a
pair remains and a single full-width row for a trailing odd button. -/
def format_rows : List (String × String) → List (List (String × String))
  | [] => []
  | [b] => [[b]]
  | b1 :: b2 :: rest => [b1, b2] :: format_rows rest

/-- format_button_markup (lines 127-144): returns None for an empty button
list, otherwise the InlineKeyboardMarkup rows built by format_rows. -/
def format_button_markup (buttons : List (String × String)) :
    Option (List (List (String × String))) :=
  if buttons.isEmpty then none else some (format_rows buttons)

/-- The 62-character alphabet of generate_random_token (line 102):
string.ascii_letters + string.digits. -/
def token_alphabet : List Char :=
  "abcdefghijklmnopqrstuvwxyzABCDEFGHIJKLMNOPQRSTUVWXYZ0123456789".toList

/-- generate_random_token (lines 100-103): draws len independent uniform
choices from the alphabet. The secrets.choice randomness is made explicit as
a stream of draw indices (reduced mod the alphabet size); the function never
consults any stored state, so there is no collision check. -/
def generate_random_token (choice : Nat → Nat) (len : Nat) : String :=
  ((List.range len).map
    (fun i => token_alphabet.getD (choice i % token_alphabet.length) 'a')).asString

/-- A document of the fileshares collection (inserted at lines 536-544);
the created_at timestamp is irrelevant to the claims and omitted. -/
structure FileRecord where
  token : String
  file_id : String
  file_type : String
  file_name : String
  caption : String
  button_title : String
deriving DecidableEq, Repr

/-- fileshares_col.insert_one (line 536): unconditional append, no
uniqueness check at storage time. -/
def fileshares_insert (vault : List FileRecord) (r : FileRecord) :
    List FileRecord :=
  vault ++ [r]

/-- fileshares_col.find_one on the token key (line 1189): first stored
record whose token matches, none when absent. -/
def find_one_token (vault : List FileRecord) (tok : String) :
    Option FileRecord :=
  vault.find? (fun r => r.token == tok)

/-- pyrogram ChatMemberStatus values. -/
inductive ChatMemberStatus
  | owner
  | administrator
  | member
  | restricted
  | left
  | banned
deriving DecidableEq, Repr

/-- The possible results of app.get_chat_member as observed by
is_user_member: a status, the UserNotParticipant exception, or any other
exception (with its description). -/
inductive MemberQueryResult
  | ok (st : ChatMemberStatus)
  | userNotParticipant
  | queryError (e : String)
deriving DecidableEq, Repr

/-- is_user_member (lines 105-117): member unless status is BANNED or LEFT;
UserNotParticipant gives False; every other exception is caught, logged and
gives False as well (the error never propagates to the caller). -/
def is_user_member : MemberQueryResult → Bool
  | .ok st => !(st == .banned || st == .left)
  | .userNotParticipant => false
  | .queryError _ => false

/-- A must-join channel document together with the membership query result
the transport returns for the requesting user on that channel. -/
structure GateChannel where
  channel_id : Int
  title : String
  username : Option String
  memberQuery : MemberQueryResult
deriving DecidableEq, Repr

/-- The observable outcome of user_start_handler (lines 1167-1255). -/
inductive StartOutcome
  | welcome
  | dbError
  | invalidLink
  | fsubError
  | joinPrompt (buttons : List (String × String))
  | releaseFile (file_id : String) (file_type : String) (caption : String)
      (protect_content : Bool)
  | unknownFileType
deriving DecidableEq, Repr

/-- The not_joined_channels accumulation (lines 1203-1211): a channel
contributes a (title, invite link) pair exactly when is_user_member is
False for it and it has a username; unjoined channels without a username
are silently skipped. -/
def not_joined_links (gates : List GateChannel) : List (String × String) :=
  gates.filterMap (fun ch =>
    if is_user_member ch.memberQuery then none
    else match ch.username with
      | some u => some (ch.title, "https://t.me/" ++ u)
      | none => none)

/-- Step 3 of user_start_handler (lines 1237-1251): dispatch on the stored
file_type, sending with protect_content=True, or reporting an unknown type. -/
def sendStoredFile (fd : FileRecord) : StartOutcome :=
  if fd.file_type == "document" then .releaseFile fd.file_id fd.file_type fd.caption true
  else if fd.file_type == "video" then .releaseFile fd.file_id fd.file_type fd.caption true
  else if fd.file_type == "photo" then .releaseFile fd.file_id fd.file_type fd.caption true
  else if fd.file_type == "audio" then .releaseFile fd.file_id fd.file_type fd.caption true
  else .unknownFileType

/-- user_start_handler (lines 1167-1255). payload is the deep-link token
(none for a plain /start); lookup is the fileshares find_one result (error =
storage failure); gatesFetch is the must_join_channels cursor iteration
(error = an exception raised inside the FSub try block, e.g. by the cursor);
getMe is the bot-identity lookup used only to build the retry link. Note
that membership query errors never reach the FSub except-handler because
is_user_member swallows them. -/
def user_start_handler (payload : Option String)
    (lookup : Except String (Option FileRecord))
    (gatesFetch : Except String (List GateChannel))
    (getMe : Except String String) : StartOutcome :=
  match payload with
  | none => .welcome
  | some token =>
    match lookup with
    | .error _ => .dbError
    | .ok none => .invalidLink
    | .ok (some fd) =>
      match gatesFetch with
      | .error _ => .fsubError
      | .ok gates =>
        let links := not_joined_links gates
        if links.isEmpty then sendStoredFile fd
        else
          match getMe with
          | .error _ => .fsubError
          | .ok bot_username =>
            .joinPrompt ((links.map (fun p => ("Join " ++ p.1, p.2))) ++
              [("✅ I Joined", "https://t.me/" ++ bot_username ++ "?start=" ++ token)])

/-- The transport's response to one send call during broadcast: success, a
FloodWait carrying the mandated wait in seconds, or any other error with its
description. -/
inductive SendOutcome
  | ok
  | floodWait (seconds : Nat)
  | err (desc : String)
deriving DecidableEq, Repr

/-- One broadcast target together with the transport's scripted responses:
the response to the first send, and the response to the retry send (only
consulted when the first response was floodWait). -/
structure TargetScript where
  chat_id : Int
  first : SendOutcome
  retry : SendOutcome
deriving DecidableEq, Repr

/-- The externally visible actions of the broadcast loop: a send attempt to
a chat, the fixed inter-send delay (asyncio.sleep(0.5), line 1099), the
FloodWait sleep for the mandated number of seconds (line 1101), and the
single retry send (lines 1103-1142). -/
inductive SendAction
  | send (chat_id : Int)
  | interDelay
  | floodSleep (seconds : Nat)
  | retrySend (chat_id : Int)
deriving DecidableEq, Repr

/-- The for-loop of execute_broadcast (lines 1056-1148) with its success and
failed accumulators and the trace of transport actions. First attempt ok:
success+1 then the 0.5s inter-send delay. FloodWait: sleep the mandated
seconds, retry exactly once; the retry's success increments success, any
retry exception increments failed (bare except, line 1144). Any other first
attempt error: failed+1 and the loop continues with the next target. The
five content-kind send branches are structurally identical, so the draft
content does not affect the accounting and is not a parameter here. -/
def broadcastLoop (success failed : Nat) (trace : List SendAction) :
    List TargetScript → Nat × Nat × List SendAction
  | [] => (success, failed, trace)
  | t :: ts =>
    match t.first with
    | .ok =>
      broadcastLoop (success + 1) failed
        (trace ++ [.send t.chat_id, .interDelay]) ts
    | .floodWait secs =>
      match t.retry with
      | .ok =>
        broadcastLoop (success + 1) failed
          (trace ++ [.send t.chat_id, .floodSleep secs, .retrySend t.chat_id]) ts
      | .floodWait _ =>
        broadcastLoop success (failed + 1)
          (trace ++ [.send t.chat_id, .floodSleep secs, .retrySend t.chat_id]) ts
      | .err _ =>
        broadcastLoop success (failed + 1)
          (trace ++ [.send t.chat_id, .floodSleep secs, .retrySend t.chat_id]) ts
    | .err _ =>
      broadcastLoop success (failed + 1) (trace ++ [.send t.chat_id]) ts

/-- execute_broadcast's fan-out (lines 1053-1148), started with zeroed
counters and an empty trace. -/
def execute_broadcast (targets : List TargetScript) :
    Nat × Nat × List SendAction :=
  broadcastLoop 0 0 [] targets

/-- The aggregate result message sent to the admin (lines 1154-1159): it
carries the two counters and nothing else. -/
def broadcast_result_text (success failed : Nat) : String :=
  "✅ **Broadcasting Complete**\n\nSuccessful: " ++ toString success ++
    "\nFailed: " ++ toString failed

/-- Follows the spec's words (section 4.5 / claim C4): a target counts as
failed exactly when its first send fails with a non-rate-limit error, or it
is rate-limited and the single retry also fails. Compared against the
source-derived broadcastLoop. -/
def targetFailed_spec (t : TargetScript) : Bool :=
  match t.first with
  | .ok => false
  | .err _ => true
  | .floodWait _ =>
    match t.retry with
    | .ok => false
    | _ => true

/-- Follows the spec's words (section 4.5 / claim C4): the per-target action
sequence — a send, then on success the fixed inter-send delay, on rate limit
the mandated sleep followed by exactly one retry, on any other error nothing
further. Compared against the source-derived broadcastLoop. -/
def targetTrace_spec (t : TargetScript) : List SendAction :=
  match t.first with
  | .ok => [.send t.chat_id, .interDelay]
  | .floodWait secs => [.send t.chat_id, .floodSleep secs, .retrySend t.chat_id]
  | .err _ => [.send t.chat_id]

/-- handle_admin_inputs, WAITING_TEXT_EDIT branch (lines 395-414). Result:
updated post_cache entry, updated user_states entry, replies sent. The
branch cannot raise: it guards on Python-falsy text and caption, and checks
the draft's presence (message.from_user.id in post_cache) before mutating. -/
def handle_text_edit (m : Msg) (cache : Option Draft) :
    Except String (Option Draft × Option AdminState × List String) :=
  if !pyStrTruthy m.text && !pyStrTruthy m.caption then
    .ok (cache, some .WAITING_TEXT_EDIT, ["❌ Please send text content."])
  else
    let new_text := pyOrStr m.text m.caption
    let new_entities := pyOrList m.entities m.caption_entities
    match cache with
    | some d =>
      .ok (some { d with text := new_text, entities := new_entities },
        some .BUILDING_POST, ["✅ **Text Updated Successfully!**"])
    | none =>
      .ok (none, some .BUILDING_POST,
        ["❌ Session expired. Please start creating a new post."])

/-- handle_admin_inputs, WAITING_POST_CONTENT branch (lines 416-446): builds
the draft dict unconditionally (there is no non-content guard), classifies
by media with precedence photo, video, document, audio, defaulting to a text
draft with Python-or text, and always advances to BUILDING_POST. -/
def handle_post_content (m : Msg) : Draft × Option AdminState :=
  let base : Draft :=
    { type := .text
      text := pyOrStr m.text m.caption
      entities := pyOrList m.entities m.caption_entities
      file_id := none
      buttons := []
      attached_file_token := none
      temp_file := none }
  let cache :=
    if m.photo.isSome then { base with type := .photo, file_id := m.photo }
    else if m.video.isSome then { base with type := .video, file_id := m.video }
    else if m.document.isSome then { base with type := .document, file_id := m.document }
    else if m.audio.isSome then { base with type := .audio, file_id := m.audio }
    else base
  (cache, some .BUILDING_POST)

/-- The per-line loop of the WAITING_URL_BUTTONS branch (lines 450-458):
for each line containing a hyphen, split at the first hyphen (Python
line.split of the hyphen with maxsplit 1), strip both parts and append the
button to post_cache[user_id]. The subscript raises KeyError when the cache
entry is absent, which this embedding surfaces as an error value. -/
def urlButtonsLoop (cache : Option Draft) (count : Nat) :
    List (List Char) → Except String (Option Draft × Nat)
  | [] => .ok (cache, count)
  | line :: rest =>
    if line.contains '-' then
      let label := (py_strip (line.takeWhile (fun c => c ≠ '-'))).asString
      let url := (py_strip ((line.dropWhile (fun c => c ≠ '-')).drop 1)).asString
      match cache with
      | none => .error "KeyError"
      | some d =>
        urlButtonsLoop (some { d with buttons := d.buttons ++ [(label, url)] })
          (count + 1) rest
    else
      urlButtonsLoop cache count rest

/-- handle_admin_inputs, WAITING_URL_BUTTONS branch (lines 448-463).
message.text.split raises AttributeError when the message has no text (the
branch never checks); otherwise the loop runs, the state becomes
BUILDING_POST and the count reply is sent. -/
def handle_url_buttons (msgText : Option String) (cache : Option Draft) :
    Except String (Option Draft × Option AdminState × List String) :=
  match msgText with
  | none => .error "AttributeError"
  | some text =>
    match urlButtonsLoop cache 0 (py_split '\n' text.toList) with
    | .error e => .error e
    | .ok (cache2, n) =>
      .ok (cache2, some .BUILDING_POST,
        ["✅ Added " ++ toString n ++ " buttons."])

/-- Follows the words of claim C6: the buttons appended for a multi-line
input are exactly the lines containing a hyphen, each split at its first
hyphen into a trimmed label and a trimmed url, in line order. Compared
against the source-derived urlButtonsLoop. -/
def url_buttons_spec (text : String) : List (String × String) :=
  ((py_split '\n' text.toList).filter (fun l => l.contains '-')).map
    (fun l =>
      ((py_strip (l.takeWhile (fun c => c ≠ '-'))).asString,
       (py_strip ((l.dropWhile (fun c => c ≠ '-')).drop 1)).asString))

/-- handle_admin_inputs, WAITING_BUTTON_TITLE branch (lines 516-560).
Python-falsy text re-prompts with the state unchanged. Otherwise the code
subscripts post_cache[user_id] (KeyError when the draft is absent — only
the temp_file key is absence-checked, not the entry itself). A missing
temp_file reports expiry and resets to BUILDING_POST. On the success path a
record is inserted into fileshares, the deep-link button is appended, the
token is recorded and temp_file cleared; a get_me or insert failure is
caught and reported with every mutation skipped and the state unchanged. -/
def handle_button_title (msgText : Option String) (cache : Option Draft)
    (vault : List FileRecord) (token : String)
    (getMe : Except String String) (dbInsertOk : Bool) :
    Except String (Option Draft × Option AdminState × List FileRecord × List String) :=
  if !pyStrTruthy msgText then
    .ok (cache, some .WAITING_BUTTON_TITLE, vault,
      ["❌ Please send text for the button title."])
  else
    match cache with
    | none => .error "KeyError"
    | some d =>
      match d.temp_file with
      | none =>
        .ok (some d, some .BUILDING_POST, vault,
          ["❌ Session expired. Please attach the file again."])
      | some tf =>
        match getMe with
        | .error _ =>
          .ok (some d, some .WAITING_BUTTON_TITLE, vault,
            ["❌ Error saving file info to database."])
        | .ok bot_username =>
          if !dbInsertOk then
            .ok (some d, some .WAITING_BUTTON_TITLE, vault,
              ["❌ Error saving file info to database."])
          else
            let button_title := (py_strip (msgText.getD "").toList).asString
            let record : FileRecord :=
              { token := token, file_id := tf.file_id, file_type := tf.file_type
                file_name := tf.file_name, caption := tf.caption
                button_title := button_title }
            let deep_link := "https://t.me/" ++ bot_username ++ "?start=" ++ token
            .ok (some { d with
                  buttons := d.buttons ++ [(button_title, deep_link)]
                  attached_file_token := some token
                  temp_file := none },
              some .BUILDING_POST, fileshares_insert vault record,
              ["✅ File Attached with Button: **" ++ button_title ++ "**"])

/-- One actor's session: the user_states entry (none = idle) and the
post_cache entry (none = no draft). -/
structure Session where
  state : Option AdminState
  draft : Option Draft
deriving DecidableEq, Repr

/-- wiz_cancel (lines 987-992): pops both post_cache and user_states. -/
def wiz_cancel_handler (_s : Session) : Session :=
  { state := none, draft := none }

/-- admin_cancel_action (lines 757-761): pops user_states only; the
post_cache entry is left as-is. -/
def admin_cancel_action_handler (s : Session) : Session :=
  { s with state := none }

/-- manage_join_channels_menu (lines 199-213): edits the menu message only;
the session is untouched. -/
def manage_join_channels_menu_handler (s : Session) : Session := s

/-- manage_post_channels_menu (lines 216-230): edits the menu message only;
the session is untouched. -/
def manage_post_channels_menu_handler (s : Session) : Session := s

/-- add_join_channel (lines 233-244): enters the join-channel input state,
leaving the draft untouched. -/
def add_join_channel_handler (s : Session) : Session :=
  { s with state := some .WAITING_JOIN_CHANNEL_INPUT }

/-- The callbacks that the various Cancel buttons are wired to. -/
inductive CancelCallback
  | admin_cancel_action
  | wiz_cancel
  | admin_manage_join_channels
  | admin_manage_post_channels
deriving DecidableEq, Repr

/-- The callback_data of the Cancel button offered by each state's prompt:
line 237 (add join channel), line 251 (add post channel), line 773 (new
post), lines 505, 804, 819, 908 and the builder menu line 791 (wiz_cancel). -/
def cancelButtonOf : AdminState → CancelCallback
  | .WAITING_JOIN_CHANNEL_INPUT => .admin_manage_join_channels
  | .WAITING_POST_CHANNEL_INPUT => .admin_manage_post_channels
  | .WAITING_POST_CONTENT => .admin_cancel_action
  | .WAITING_TEXT_EDIT => .wiz_cancel
  | .WAITING_URL_BUTTONS => .wiz_cancel
  | .WAITING_FILE_ATTACH => .wiz_cancel
  | .WAITING_BUTTON_TITLE => .wiz_cancel
  | .BUILDING_POST => .wiz_cancel

/-- Dispatch of the cancel callbacks to their handlers. -/
def runCancel : CancelCallback → Session → Session
  | .admin_cancel_action => admin_cancel_action_handler
  | .wiz_cancel => wiz_cancel_handler
  | .admin_manage_join_channels => manage_join_channels_menu_handler
  | .admin_manage_post_channels => manage_post_channels_menu_handler

theorem format_rows_flatten (B : List (String × String)) :
    (format_rows B).flatten = B := by
  induction B using format_rows.induct with
  | case1 => simp [format_rows]
  | case2 b => simp [format_rows]
  | case3 b1 b2 rest ih => simp [format_rows, ih]

theorem format_rows_eq_nil_iff (B : List (String × String)) :
    format_rows B = [] ↔ B = [] := by
  induction B using format_rows.induct with
  | case1 => simp [format_rows]
  | case2 b => simp [format_rows]
  | case3 b1 b2 rest ih => simp [format_rows]

theorem format_rows_dropLast_two (B : List (String × String)) :
    ∀ r ∈ (format_rows B).dropLast, r.length = 2 := by
  induction B using format_rows.induct with
  | case1 => simp [format_rows]
  | case2 b => simp [format_rows]
  | case3 b1 b2 rest ih =>
    intro r hr
    rcases hrest : format_rows rest with _ | ⟨x, xs⟩
    · simp [format_rows, hrest] at hr
    · rw [format_rows, hrest] at hr
      rw [List.dropLast_cons_of_ne_nil (by simp)] at hr
      rcases List.mem_cons.mp hr with h | h
      · simp [h]
      · exact ih r (by rw [hrest]; exact h)

theorem format_rows_getLast (B : List (String × String)) :
    B = [] ∨ ∃ r, (format_rows B).getLast? = some r ∧
      r.length = if B.length % 2 = 1 then 1 else 2 := by
  induction B using format_rows.induct with
  | case1 => exact Or.inl rfl
  | case2 b => exact Or.inr ⟨[b], by simp [format_rows]⟩
  | case3 b1 b2 rest ih =>
    refine Or.inr ?_
    rcases ih with hnil | ⟨r, hr1, hr2⟩
    · subst hnil
      exact ⟨[b1, b2], by simp [format_rows]⟩
    · refine ⟨r, ?_, ?_⟩
      · cases h : format_rows rest with
        | nil => rw [h] at hr1; simp at hr1
        | cons x xs =>
          rw [format_rows, h, List.getLast?_cons_cons, ← h, hr1]
      · rw [hr2]
        have hmod : (b1 :: b2 :: rest).length % 2 = rest.length % 2 := by
          simp [List.length_cons]
          omega
        rw [hmod]

/-- Claim C5: for every draft button list B rendered for preview or
broadcast, format_button_markup attaches no keyboard when B is empty, and
otherwise produces rows containing exactly the buttons of B in insertion
order, two per row, with a trailing odd button alone on the final row. -/
theorem C5_two_per_row_layout (B : List (String × String)) :
    (format_button_markup B = none ↔ B = [])
    ∧ ∀ rows, format_button_markup B = some rows →
        rows.flatten = B
        ∧ (∀ r ∈ rows.dropLast, r.length = 2)
        ∧ ∀ r, rows.getLast? = some r →
            r.length = if B.length % 2 = 1 then 1 else 2 := by
  constructor
  · constructor
    · intro h
      by_cases hB : B.isEmpty
      · simpa using hB
      · simp [format_button_markup, hB] at h
    · intro h; subst h; rfl
  · intro rows hrows
    have hB : ¬ B.isEmpty := by
      intro hB
      simp [format_button_markup, hB] at hrows
    have hr : rows = format_rows B := by
      simp [format_button_markup, hB] at hrows
      exact hrows.symm
    subst hr
    refine ⟨format_rows_flatten B, format_rows_dropLast_two B, ?_⟩
    intro r hlast
    rcases format_rows_getLast B with hnil | ⟨r2, h1, h2⟩
    · subst hnil; simp at hB
    · rw [h1] at hlast
      cases hlast
      exact h2

theorem C5_witness :
    format_button_markup [("A", "u1"), ("B", "u2"), ("C", "u3")] =
        some [[("A", "u1"), ("B", "u2")], [("C", "u3")]]
    ∧ ([[("A", "u1"), ("B", "u2")], [("C", "u3")]] :
        List (List (String × String))).flatten =
        [("A", "u1"), ("B", "u2"), ("C", "u3")]
    ∧ (∀ r ∈ ([[("A", "u1"), ("B", "u2")], [("C", "u3")]] :
        List (List (String × String))).dropLast, r.length = 2)
    ∧ ∀ r, ([[("A", "u1"), ("B", "u2")], [("C", "u3")]] :
        List (List (String × String))).getLast? = some r → r.length = 1 := by
  have h := (C5_two_per_row_layout [("A", "u1"), ("B", "u2"), ("C", "u3")]).2
    [[("A", "u1"), ("B", "u2")], [("C", "u3")]] (by rfl)
  refine ⟨rfl, h.1, h.2.1, ?_⟩
  intro r hr
  have := h.2.2 r hr
  simpa using this

theorem broadcastLoop_spec (ts : List TargetScript) : ∀ s f tr,
    broadcastLoop s f tr ts =
      (s + (ts.filter (fun t => !targetFailed_spec t)).length,
       f + (ts.filter targetFailed_spec).length,
       tr ++ (ts.map targetTrace_spec).flatten) := by
  induction ts with
  | nil => intro s f tr; simp [broadcastLoop]
  | cons t ts ih =>
    intro s f tr
    rcases hf : t.first with _ | secs | d
    · simp [broadcastLoop, hf, ih, targetFailed_spec, targetTrace_spec,
        List.filter_cons]
      omega
    · rcases hr : t.retry with _ | s2 | d2 <;>
        simp [broadcastLoop, hf, hr, ih, targetFailed_spec, targetTrace_spec,
          List.filter_cons] <;> omega
    · simp [broadcastLoop, hf, ih, targetFailed_spec, targetTrace_spec,
        List.filter_cons]
      omega

/-- Claim C4: in the broadcast fan-out every target is processed (the trace
is the concatenation of each target's own action sequence, so no failure
aborts the loop); a rate-limited send sleeps the mandated seconds and is
retried exactly once, counting as failed only if the retry also fails; any
other error counts the target as failed. -/
theorem C4_per_target_retry_isolation (ts : List TargetScript) :
    (execute_broadcast ts).1 = (ts.filter (fun t => !targetFailed_spec t)).length
    ∧ (execute_broadcast ts).2.1 = (ts.filter targetFailed_spec).length
    ∧ (execute_broadcast ts).2.2 = (ts.map targetTrace_spec).flatten := by
  have h := broadcastLoop_spec ts 0 0 []
  simp [execute_broadcast, h]

/-- Claim C3, counterexample part: with two targets of which exactly one
fails with a non-rate-limit error, the counters are 1 and 1 as claimed, but
the reported aggregate result is the bare two-counter message; the failing
target's descriptive error does not appear in it, and no perTargetErrors
list exists in the result. -/
theorem C3_counterexample :
    (execute_broadcast [⟨1, .ok, .ok⟩, ⟨2, .err "CHAT_WRITE_FORBIDDEN", .ok⟩]).1 = 1
    ∧ (execute_broadcast [⟨1, .ok, .ok⟩, ⟨2, .err "CHAT_WRITE_FORBIDDEN", .ok⟩]).2.1 = 1
    ∧ broadcast_result_text 1 1 =
        "✅ **Broadcasting Complete**\n\nSuccessful: 1\nFailed: 1"
    ∧ ¬ ("CHAT_WRITE_FORBIDDEN".toList <:+: (broadcast_result_text 1 1).toList) := by
  refine ⟨rfl, rfl, rfl, by decide⟩

/-- Claim C3 as amended: delivery to K targets where exactly one fails with
a non-rate-limit error and all others succeed on the first attempt yields
success = K-1 and failed = 1, and the reported aggregate carries exactly the
two counters (the per-target error is only logged; no error list exists). -/
theorem C3_amended_counts (pre post : List TargetScript) (bad : TargetScript)
    (d : String) (hbad : bad.first = .err d)
    (hpre : ∀ t ∈ pre, t.first = .ok) (hpost : ∀ t ∈ post, t.first = .ok) :
    (execute_broadcast (pre ++ bad :: post)).1 = (pre ++ bad :: post).length - 1
    ∧ (execute_broadcast (pre ++ bad :: post)).2.1 = 1
    ∧ broadcast_result_text (execute_broadcast (pre ++ bad :: post)).1
        (execute_broadcast (pre ++ bad :: post)).2.1 =
      "✅ **Broadcasting Complete**\n\nSuccessful: " ++
        toString (pre.length + post.length) ++ "\nFailed: 1" := by
  have h := broadcastLoop_spec (pre ++ bad :: post) 0 0 []
  have hpre2 : ∀ t ∈ pre, targetFailed_spec t = false := by
    intro t ht; simp [targetFailed_spec, hpre t ht]
  have hpost2 : ∀ t ∈ post, targetFailed_spec t = false := by
    intro t ht; simp [targetFailed_spec, hpost t ht]
  have hbad2 : targetFailed_spec bad = true := by
    simp [targetFailed_spec, hbad]
  have hfail : ((pre ++ bad :: post).filter targetFailed_spec).length = 1 := by
    rw [List.filter_append, List.filter_cons]
    rw [List.filter_eq_nil_iff.mpr (by intro t ht; simp [hpre2 t ht]),
      List.filter_eq_nil_iff.mpr (by intro t ht; simp [hpost2 t ht])]
    simp [hbad2]
  have hok : ((pre ++ bad :: post).filter (fun t => !targetFailed_spec t)).length =
      pre.length + post.length := by
    rw [List.filter_append, List.filter_cons]
    rw [List.filter_eq_self.mpr (by intro t ht; simp [hpre2 t ht]),
      List.filter_eq_self.mpr (by intro t ht; simp [hpost2 t ht])]
    simp [hbad2]
  have h1 : (execute_broadcast (pre ++ bad :: post)).1 = pre.length + post.length := by
    simp only [execute_broadcast, h, Nat.zero_add]
    exact hok
  have h2 : (execute_broadcast (pre ++ bad :: post)).2.1 = 1 := by
    simp only [execute_broadcast, h, Nat.zero_add]
    exact hfail
  refine ⟨?_, h2, ?_⟩
  · rw [h1]; simp [List.length_append]
  · rw [h1, h2]
    simp only [broadcast_result_text, String.append_assoc]
    rfl

theorem C3_witness :
    (execute_broadcast [⟨5, .ok, .ok⟩, ⟨6, .err "PEER_ID_INVALID", .ok⟩]).1 = 1
    ∧ (execute_broadcast [⟨5, .ok, .ok⟩, ⟨6, .err "PEER_ID_INVALID", .ok⟩]).2.1 = 1 := by
  have h := C3_amended_counts [⟨5, .ok, .ok⟩] [] ⟨6, .err "PEER_ID_INVALID", .ok⟩
    "PEER_ID_INVALID" rfl
    (by intro t ht; simp at ht; subst ht; rfl)
    (by intro t ht; simp at ht)
  exact ⟨by simpa using h.1, by simpa using h.2.1⟩

theorem urlButtonsLoop_spec (lines : List (List Char)) : ∀ (d : Draft) (count : Nat),
    urlButtonsLoop (some d) count lines =
      .ok (some { d with buttons := d.buttons ++
          ((lines.filter (fun l => l.contains '-')).map
            (fun l =>
              ((py_strip (l.takeWhile (fun c => c ≠ '-'))).asString,
               (py_strip ((l.dropWhile (fun c => c ≠ '-')).drop 1)).asString))) },
        count + (lines.filter (fun l => l.contains '-')).length) := by
  induction lines with
  | nil => intro d count; simp [urlButtonsLoop]
  | cons line rest ih =>
    intro d count
    by_cases hl : line.contains '-' = true
    · simp only [urlButtonsLoop, hl, if_true, ih, List.filter_cons,
        List.map_cons, List.length_cons]
      refine congrArg Except.ok ?_
      refine Prod.ext ?_ ?_
      · simp [List.append_assoc]
      · simp; omega
    · have hl3 : ¬ ('-' ∈ line) := by simpa using hl
      simp [urlButtonsLoop, hl3, ih]

/-- Claim C6: in AwaitingButtonsInput, exactly the lines containing a hyphen
each append one button, split at the first hyphen into trimmed label and
trimmed url in line order; other lines are skipped; the appended count is
reported and the state returns to BUILDING_POST. In particular the input
with no hyphen appends nothing and reports a zero count. -/
theorem C6_hyphen_lines_append (text : String) (d : Draft) :
    handle_url_buttons (some text) (some d) =
      .ok (some { d with buttons := d.buttons ++ url_buttons_spec text },
        some .BUILDING_POST,
        ["✅ Added " ++ toString (url_buttons_spec text).length ++ " buttons."])
    ∧ handle_url_buttons (some "no hyphen here") (some d) =
      .ok (some d, some .BUILDING_POST, ["✅ Added 0 buttons."]) := by
  have key : ∀ t : String, handle_url_buttons (some t) (some d) =
      .ok (some { d with buttons := d.buttons ++ url_buttons_spec t },
        some .BUILDING_POST,
        ["✅ Added " ++ toString (url_buttons_spec t).length ++ " buttons."]) := by
    intro t
    simp only [handle_url_buttons, urlButtonsLoop_spec, url_buttons_spec]
    simp [List.length_map]
  refine ⟨key text, ?_⟩
  have h2 := key "no hyphen here"
  have hspec : url_buttons_spec "no hyphen here" = [] := rfl
  rw [h2, hspec]
  simp only [List.append_nil]
  rfl

/-- Claim C2 (code bug): the WAITING_URL_BUTTONS branch performs no draft
absence-check — with the post_cache entry missing, a hyphen line raises an
uncaught KeyError; the WAITING_BUTTON_TITLE branch checks only the staged
temp_file, and its post_cache subscript likewise raises KeyError when the
entry is missing; only the WAITING_TEXT_EDIT branch checks and recovers as
the claim describes. -/
theorem C2_stale_draft_crash :
    handle_url_buttons (some "Label - https://example.com") none = .error "KeyError"
    ∧ handle_button_title (some "My Button") none [] "tok12345" (.ok "stellabot") true =
        .error "KeyError"
    ∧ handle_text_edit ⟨some "new text", none, [], [], none, none, none, none⟩ none =
        .ok (none, some .BUILDING_POST,
          ["❌ Session expired. Please start creating a new post."]) := by
  exact ⟨rfl, rfl, rfl⟩

/-- Claim C7, counterexample part: an input with no text, no caption and no
media does not re-prompt; the handler constructs an empty text draft and
advances the state to BUILDING_POST. -/
theorem C7_counterexample :
    handle_post_content ⟨none, none, [], [], none, none, none, none⟩ =
      ({ type := .text, text := "", entities := [], file_id := none,
         buttons := [], attached_file_token := none, temp_file := none },
       some .BUILDING_POST)
    ∧ (handle_post_content ⟨none, none, [], [], none, none, none, none⟩).2 ≠
        some .WAITING_POST_CONTENT := by
  exact ⟨rfl, by decide⟩

/-- Claim C7 as amended: every input received in WAITING_POST_CONTENT
constructs a draft with an empty button list and advances to BUILDING_POST;
content kind is classified with precedence photo, video, document, audio,
defaulting to a text draft (a no-content input yields an empty text draft;
there is no re-prompt branch). -/
theorem C7_amended_always_builds (m : Msg) :
    (handle_post_content m).2 = some .BUILDING_POST
    ∧ (handle_post_content m).1.buttons = []
    ∧ (handle_post_content m).1.attached_file_token = none
    ∧ (handle_post_content m).1.text = pyOrStr m.text m.caption
    ∧ (handle_post_content m).1.entities = pyOrList m.entities m.caption_entities
    ∧ (m.photo.isSome = true →
        (handle_post_content m).1.type = .photo ∧ (handle_post_content m).1.file_id = m.photo)
    ∧ (m.photo = none → m.video.isSome = true →
        (handle_post_content m).1.type = .video ∧ (handle_post_content m).1.file_id = m.video)
    ∧ (m.photo = none → m.video = none → m.document.isSome = true →
        (handle_post_content m).1.type = .document ∧ (handle_post_content m).1.file_id = m.document)
    ∧ (m.photo = none → m.video = none → m.document = none → m.audio.isSome = true →
        (handle_post_content m).1.type = .audio ∧ (handle_post_content m).1.file_id = m.audio)
    ∧ (m.photo = none → m.video = none → m.document = none → m.audio = none →
        (handle_post_content m).1.type = .text ∧ (handle_post_content m).1.file_id = none) := by
  rcases m with ⟨t, c, e, ce, p, v, dc, a⟩
  cases p <;> cases v <;> cases dc <;> cases a <;>
    simp [handle_post_content]

theorem C7_witness :
    (handle_post_content ⟨none, some "c", [], [], some "PH", none, none, none⟩).2 =
      some .BUILDING_POST
    ∧ (handle_post_content ⟨none, some "c", [], [], some "PH", none, none, none⟩).1.type =
      .photo := by
  have h := C7_amended_always_builds ⟨none, some "c", [], [], some "PH", none, none, none⟩
  exact ⟨h.1, (h.2.2.2.2.2.1 rfl).1⟩

/-- Claim C10: replacing the text in WAITING_TEXT_EDIT mutates only the
draft's text and entities; type, file_id, buttons, attached_file_token (and
the transient temp_file) are unchanged. -/
theorem C10_text_edit_frame (m : Msg) (d : Draft)
    (h : pyStrTruthy m.text = true ∨ pyStrTruthy m.caption = true) :
    ∃ d2, handle_text_edit m (some d) =
        .ok (some d2, some .BUILDING_POST, ["✅ **Text Updated Successfully!**"])
      ∧ d2.type = d.type ∧ d2.file_id = d.file_id ∧ d2.buttons = d.buttons
      ∧ d2.attached_file_token = d.attached_file_token
      ∧ d2.temp_file = d.temp_file
      ∧ d2.text = pyOrStr m.text m.caption
      ∧ d2.entities = pyOrList m.entities m.caption_entities := by
  refine ⟨({ d with
      text := pyOrStr m.text m.caption
      entities := pyOrList m.entities m.caption_entities }),
    ?_, rfl, rfl, rfl, rfl, rfl, rfl, rfl⟩
  unfold handle_text_edit
  rcases h with h | h <;> simp [h]

theorem C10_witness :
    ∃ d2, handle_text_edit ⟨some "hello", none, [], [], none, none, none, none⟩
        (some ⟨.photo, "old", [1], some "F", [("B", "u")], some "tk", none⟩) =
        .ok (some d2, some .BUILDING_POST, ["✅ **Text Updated Successfully!**"])
      ∧ d2.type = .photo ∧ d2.buttons = [("B", "u")] := by
  obtain ⟨d2, h1, h2, h3, h4, h5, h6, h7, h8⟩ :=
    C10_text_edit_frame ⟨some "hello", none, [], [], none, none, none, none⟩
      ⟨.photo, "old", [1], some "F", [("B", "u")], some "tk", none⟩ (Or.inl rfl)
  exact ⟨d2, h1, by rw [h2], by rw [h4]⟩

theorem getD_mem_token_alphabet (n : Nat) :
    token_alphabet.getD n 'a' ∈ token_alphabet := by
  rw [List.getD_eq_getElem?_getD]
  cases h : token_alphabet[n]? with
  | none => simp; decide
  | some c =>
    simp only [Option.getD_some]
    exact List.getElem?_mem h

/-- Claim C8, counterexample part: generate_random_token never consults the
stored records, so two issuances whose random draws happen to coincide yield
the same token; the two records are both stored (insert has no uniqueness
check) and the token then resolves to the first record only — the second
issuance is not resolvable to its own record, and no regeneration on
collision exists anywhere in the code. -/
theorem C8_counterexample :
    generate_random_token (fun _ => 0) 8 = generate_random_token (fun n => 62 * n) 8
    ∧ generate_random_token (fun _ => 0) 8 = "aaaaaaaa"
    ∧ find_one_token
        (fileshares_insert
          (fileshares_insert []
            ⟨generate_random_token (fun _ => 0) 8, "FILE_A", "document", "A.pdf", "", "Get A"⟩)
          ⟨generate_random_token (fun n => 62 * n) 8, "FILE_B", "video", "B.mp4", "", "Get B"⟩)
        (generate_random_token (fun n => 62 * n) 8) =
      some ⟨"aaaaaaaa", "FILE_A", "document", "A.pdf", "", "Get A"⟩
    ∧ (⟨"aaaaaaaa", "FILE_A", "document", "A.pdf", "", "Get A"⟩ : FileRecord) ≠
        ⟨"aaaaaaaa", "FILE_B", "video", "B.mp4", "", "Get B"⟩ := by
  refine ⟨rfl, rfl, rfl, by decide⟩

/-- Claim C8 as amended: a token is 8 independent draws from the 62-char
alphanumeric alphabet, generated without consulting the vault (no collision
check, no regeneration); insertion is unconditional; a never-issued token
resolves to none, and a token fresh at insertion time resolves to its own
record. -/
theorem C8_amended_no_regeneration (vault : List FileRecord) (r : FileRecord)
    (hfresh : ∀ q ∈ vault, q.token ≠ r.token) :
    find_one_token vault r.token = none
    ∧ find_one_token (fileshares_insert vault r) r.token = some r
    ∧ ∀ choice : Nat → Nat, (generate_random_token choice 8).toList.length = 8
        ∧ ∀ c ∈ (generate_random_token choice 8).toList, c ∈ token_alphabet := by
  have hnone : find_one_token vault r.token = none := by
    apply List.find?_eq_none.mpr
    intro q hq
    simpa using hfresh q hq
  have hlist : ∀ l : List Char, (List.asString l).toList = l := fun _ => rfl
  refine ⟨hnone, ?_, ?_⟩
  · unfold find_one_token fileshares_insert
    rw [List.find?_append]
    unfold find_one_token at hnone
    rw [hnone]
    simp
  · intro choice
    constructor
    · rw [generate_random_token, hlist]
      simp
    · intro c hc
      rw [generate_random_token, hlist] at hc
      obtain ⟨i, _, hi⟩ := List.mem_map.mp hc
      rw [← hi]
      exact getD_mem_token_alphabet _

theorem C8_witness :
    find_one_token [] "tokn0001" = none
    ∧ find_one_token
        (fileshares_insert [] ⟨"tokn0001", "FID", "document", "f.pdf", "", "Get"⟩)
        "tokn0001" = some ⟨"tokn0001", "FID", "document", "f.pdf", "", "Get"⟩ := by
  have h := C8_amended_no_regeneration []
    ⟨"tokn0001", "FID", "document", "f.pdf", "", "Get"⟩
    (by intro q hq; simp at hq)
  exact ⟨h.1, h.2.1⟩

/-- Claim C1, counterexample part: a membership query error on a gate
channel does not halt the resolver with an error response. With a single
gate channel whose query errors and which has no public username, the file
is released outright (the channel is treated as satisfied); with a username,
the channel is listed in the join prompt (treated as merely unjoined). -/
theorem C1_counterexample :
    user_start_handler (some "tok123")
        (.ok (some ⟨"tok123", "FILEID", "document", "Doc.pdf", "cap", "Get"⟩))
        (.ok [⟨-100123, "Secret Channel", none, .queryError "ChannelPrivate"⟩])
        (.ok "stellabot")
      = .releaseFile "FILEID" "document" "cap" true
    ∧ user_start_handler (some "tok123")
        (.ok (some ⟨"tok123", "FILEID", "document", "Doc.pdf", "cap", "Get"⟩))
        (.ok [⟨-100123, "Public Channel", some "pubchan", .queryError "ChannelPrivate"⟩])
        (.ok "stellabot")
      = .joinPrompt [("Join Public Channel", "https://t.me/pubchan"),
          ("✅ I Joined", "https://t.me/stellabot?start=tok123")] := by
  exact ⟨rfl, rfl⟩

/-- Claim C1 as amended: per channel, any status other than banned or left
counts as joined and a membership query error is swallowed, counting the
channel as not joined (listed in the join prompt when it has a username,
silently excluded — hence treated as satisfied — when it has none); the
resolver halts with an error response only on failures outside the
membership query itself (registry cursor iteration or bot-identity lookup). -/
theorem C1_amended_per_channel_fail_open (st : ChatMemberStatus)
    (e tok bot : String) (fd : FileRecord) (gates : List GateChannel)
    (hgates : ∀ ch ∈ gates, is_user_member ch.memberQuery = false ∧ ch.username = none)
    (ch0 : GateChannel) (u : String)
    (hu : ch0.username = some u) (hm : is_user_member ch0.memberQuery = false) :
    (is_user_member (.ok st) = true ↔ st ≠ .banned ∧ st ≠ .left)
    ∧ is_user_member (.queryError e) = false
    ∧ is_user_member .userNotParticipant = false
    ∧ user_start_handler (some tok) (.ok (some fd)) (.error e) (.ok bot) = .fsubError
    ∧ user_start_handler (some tok) (.ok (some fd)) (.ok gates) (.ok bot) = sendStoredFile fd
    ∧ user_start_handler (some tok) (.ok (some fd)) (.ok (ch0 :: gates)) (.ok bot) =
        .joinPrompt [("Join " ++ ch0.title, "https://t.me/" ++ u),
          ("✅ I Joined", "https://t.me/" ++ bot ++ "?start=" ++ tok)] := by
  have hnil : not_joined_links gates = [] := by
    apply List.filterMap_eq_nil_iff.mpr
    intro ch hch
    rcases hgates ch hch with ⟨h1, h2⟩
    simp [h1, h2]
  have hcons : not_joined_links (ch0 :: gates) =
      [(ch0.title, "https://t.me/" ++ u)] := by
    rw [not_joined_links, List.filterMap_cons]
    rw [not_joined_links] at hnil
    rw [hnil]
    simp [hm, hu]
  refine ⟨?_, rfl, rfl, rfl, ?_, ?_⟩
  · cases st <;> simp [is_user_member]
  · simp [user_start_handler, hnil]
  · simp [user_start_handler, hcons]

theorem C1_witness :
    user_start_handler (some "tok9")
        (.ok (some ⟨"tok9", "FID", "photo", "p", "", "btn"⟩))
        (.error "cursor failure") (.ok "stellabot") = .fsubError
    ∧ user_start_handler (some "tok9")
        (.ok (some ⟨"tok9", "FID", "photo", "p", "", "btn"⟩))
        (.ok [⟨-1, "Hidden", none, .queryError "boom"⟩]) (.ok "stellabot") =
      sendStoredFile ⟨"tok9", "FID", "photo", "p", "", "btn"⟩ := by
  have h := C1_amended_per_channel_fail_open .member "cursor failure" "tok9" "stellabot"
    ⟨"tok9", "FID", "photo", "p", "", "btn"⟩
    [⟨-1, "Hidden", none, .queryError "boom"⟩]
    (by intro ch hch; simp at hch; subst hch; exact ⟨rfl, rfl⟩)
    ⟨-2, "Pub", some "pub", .queryError "x"⟩ "pub" rfl rfl
  exact ⟨h.2.2.2.1, h.2.2.2.2.1⟩

/-- Claim C9, counterexample part: the state WAITING_JOIN_CHANNEL_INPUT is
reachable in one step from idle via add_join_channel, and the Cancel button
its prompt offers is wired to admin_manage_join_channels, which leaves the
session unchanged — not idle, draft untouched. -/
theorem C9_counterexample :
    (add_join_channel_handler ⟨none, none⟩).state = some .WAITING_JOIN_CHANNEL_INPUT
    ∧ runCancel (cancelButtonOf .WAITING_JOIN_CHANNEL_INPUT)
        (add_join_channel_handler ⟨none, none⟩) = add_join_channel_handler ⟨none, none⟩
    ∧ (runCancel (cancelButtonOf .WAITING_JOIN_CHANNEL_INPUT)
        (add_join_channel_handler ⟨none, none⟩)).state ≠ none := by
  refine ⟨rfl, rfl, by decide⟩

/-- Claim C9 as amended: wiz_cancel clears both the state and the draft from
any session, and every wizard state whose Cancel button is wired to
wiz_cancel therefore cancels to idle; admin_cancel_action clears the state
and leaves the draft entry as-is; but the Cancel buttons of the two
channel-add input states route to the management menus and leave the session
entirely unchanged. -/
theorem C9_amended_cancel (s : Session) :
    wiz_cancel_handler s = ⟨none, none⟩
    ∧ (∀ st : AdminState, cancelButtonOf st = .wiz_cancel →
        runCancel (cancelButtonOf st) s = ⟨none, none⟩)
    ∧ admin_cancel_action_handler s = ⟨none, s.draft⟩
    ∧ runCancel (cancelButtonOf .WAITING_JOIN_CHANNEL_INPUT) s = s
    ∧ runCancel (cancelButtonOf .WAITING_POST_CHANNEL_INPUT) s = s := by
  obtain ⟨st0, dr0⟩ := s
  refine ⟨rfl, ?_, rfl, rfl, rfl⟩
  intro st hst
  rw [hst]
  rfl

theorem C9_witness :
    runCancel (cancelButtonOf .BUILDING_POST)
      ⟨some .BUILDING_POST, some ⟨.text, "x", [], none, [], none, none⟩⟩ =
      ⟨none, none⟩ := by
  exact (C9_amended_cancel
    ⟨some .BUILDING_POST, some ⟨.text, "x", [], none, [], none, none⟩⟩).2.1
    .BUILDING_POST rfl

end Stella
